import Mathlib

/-!
Verification development for the `jdgabb_goalChatbot` service
(`app/api/v1/endpoints/project_task_question.py`, `app/utils/task_utils.py`,
`app/services/openai_service.py`, `app/schemas/project.py`, `app/main.py`).

The Python code is shallowly embedded:

* Python/JSON values handled dynamically by the endpoints are modelled by the
  inductive type `Json`; Python truthiness is `pyTruthy`.
* The outbound HTTP client used by the persistence sweep is an oracle
  `Backend : method → path → payload → HttpResult`; the external
  project-service GET used by `_fetch_project_by_id` is an oracle
  `String → HttpResp`.
* The OpenAI gateway (`generate_text`) is an oracle
  `String → Except HttpError String`: it either produces the completion
  string or raises an `HTTPException` (status 500 in the source).
* `HTTPException(status_code, detail)` is `HttpError`; a handler that raises
  is modelled as returning `Except.error`.
* FastAPI state effects (the in-memory `projects` table, the payload pushed
  to the external service) are returned explicitly in result structures.
-/

namespace GoalChatbot

/-- JSON / dynamic Python values as handled by the endpoints: `null` is Python
`None`, `obj` is a `dict` (association list of string keys, unique in JSON). -/
inductive Json where
  | null
  | bool (b : Bool)
  | num (n : Int)
  | str (s : String)
  | arr (elems : List Json)
  | obj (entries : List (String × Json))

/-- Python truthiness (`bool(x)`) of a JSON value: `None`, `False`, `0`, `""`,
`[]` and `{}` are falsy, everything else truthy. -/
def pyTruthy : Json → Bool
  | .null => false
  | .bool b => b
  | .num n => n != 0
  | .str s => !s.isEmpty
  | .arr elems => !elems.isEmpty
  | .obj entries => !entries.isEmpty

/-- First value stored under key `k` in a dict's entry list, or `dflt` when the
key is absent: Python `d.get(k, dflt)`. -/
def dictGetD (entries : List (String × Json)) (k : String) (dflt : Json) : Json :=
  match entries with
  | [] => dflt
  | (k2, v) :: rest => if k2 = k then v else dictGetD rest k dflt

/-- Python `d.get(k)` (default `None`) on a value that may not be a dict:
`none` models the `AttributeError` raised when the receiver is not a dict. -/
def pyGet (j : Json) (k : String) : Option Json :=
  match j with
  | .obj entries => some (dictGetD entries k Json.null)
  | _ => none

/-- Python `s.rstrip('/')`: drop all trailing `'/'` characters. -/
def rstripSlash (s : String) : String :=
  String.mk ((s.data.reverse.dropWhile (fun c => c = '/')).reverse)

/-- ASCII upper-casing of one character (enough for the method names
`"patch"`, `"put"`, `"post"`). -/
def asciiUpper (c : Char) : Char :=
  if 'a' ≤ c ∧ c ≤ 'z' then Char.ofNat (c.toNat - 32) else c

/-- Python `s.upper()` on ASCII text. -/
def str_upper (s : String) : String :=
  String.mk (s.data.map asciiUpper)

/-- Python slicing `s[:n]`. -/
def str_take (s : String) (n : Nat) : String :=
  String.mk (s.data.take n)

/-- Outcome of one outbound HTTP call made by the persistence sweep: either a
response (status code and body text) or a raised exception with message. -/
inductive HttpResult where
  | response (status : Nat) (text : String)
  | exception (msg : String)

/-- The outbound HTTP client as an oracle. Arguments in order: lower-case
method name (the source does `fn = getattr(client, method)`), URL, and the
JSON payload (`fn(path, json=payload, timeout=10.0)`). -/
abbrev Backend := String → String → Json → HttpResult

/-- `resp.status_code in (200, 201, 204)` — the stopping condition of the
persistence sweep. -/
def is_success_result : HttpResult → Bool
  | .response status _ => status == 200 || status == 201 || status == 204
  | .exception _ => false

/-- One attempt of the persistence sweep: a (method, path, payload) triple. -/
structure PersistAttempt where
  method : String
  path : String
  payload : Json

/-- The four candidate URL shapes of `_persist_answered_questions_to_service`,
in source order: `update/{uid}/`, `patch/{uid}/`, `{uid}/`, `{uid}/update`. -/
def candidate_paths (base uid : String) : List String :=
  [rstripSlash base ++ "/api/v1/project/update/" ++ uid ++ "/",
   rstripSlash base ++ "/api/v1/project/patch/" ++ uid ++ "/",
   rstripSlash base ++ "/api/v1/project/" ++ uid ++ "/",
   rstripSlash base ++ "/api/v1/project/" ++ uid ++ "/update"]

/-- The three payload envelopes, in source order: bare, `data`-wrapped,
`project`-wrapped. -/
def payload_variants (aq : Json) : List Json :=
  [Json.obj [("answered_questions", aq)],
   Json.obj [("data", Json.obj [("answered_questions", aq)])],
   Json.obj [("project", Json.obj [("answered_questions", aq)])]]

/-- The nine attempts tried against one candidate path:
`for method in ("patch", "put", "post")` in the middle, and
`for payload in payload_variants` innermost. -/
def path_block (path : String) (aq : Json) : List PersistAttempt :=
  ["patch", "put", "post"].flatMap (fun method =>
    (payload_variants aq).map (fun payload => ⟨method, path, payload⟩))

/-- All attempts of the sweep in iteration order: the `for path` loop is
outermost. -/
def persist_attempts (base uid : String) (aq : Json) : List PersistAttempt :=
  (candidate_paths base uid).flatMap (fun path => path_block path aq)

/-- Whether the backend call for attempt `a` hits the sweep's stopping
condition. -/
def attempt_ok (backend : Backend) (a : PersistAttempt) : Bool :=
  is_success_result (backend a.method a.path a.payload)

/-- The debug text recorded for attempt `a`:
`f"{method.upper()} {path} -> {resp.status_code} {resp.text[:1000]}"` on a
response, `f"{method.upper()} {path} -> EXCEPTION: {e}"` on an exception. -/
def attempt_debug (backend : Backend) (a : PersistAttempt) : String :=
  match backend a.method a.path a.payload with
  | .response status text =>
      str_upper a.method ++ " " ++ a.path ++ " -> " ++ toString status ++ " " ++ str_take text 1000
  | .exception msg =>
      str_upper a.method ++ " " ++ a.path ++ " -> EXCEPTION: " ++ msg

/-- The nested `for` loops of `_persist_answered_questions_to_service` over a
flattened attempt list, threading `last_err`. Returns the source function's
`(success, debug_text)` pair, paired with the trace of attempts actually
issued (each loop iteration performs exactly one HTTP call, so the trace is
observable on the wire). -/
def run_sweep (backend : Backend) : List PersistAttempt → String → (Bool × String) × List PersistAttempt
  | [], last_err => ((false, last_err), [])
  | a :: rest, _ =>
      if attempt_ok backend a then
        ((true, attempt_debug backend a), [a])
      else
        let r := run_sweep backend rest (attempt_debug backend a)
        (r.1, a :: r.2)

/-- `_persist_answered_questions_to_service(uid, answered_questions)` with the
trace of issued attempts. `env` is `os.getenv("PROJECT_SERVICE_URL")`
(`none` = unset); a missing or empty value short-circuits to failure. The
source's return value is the first component (see
`persist_answered_questions_to_service`); `last_err` starts at `"no-attempt"`. -/
def persist_sweep (env : Option String) (uid : String) (aq : Json) (backend : Backend) :
    (Bool × String) × List PersistAttempt :=
  match env with
  | none => ((false, "PROJECT_SERVICE_URL not set in environment (.env)"), [])
  | some base =>
      if base = "" then
        ((false, "PROJECT_SERVICE_URL not set in environment (.env)"), [])
      else
        run_sweep backend (persist_attempts base uid aq) "no-attempt"

/-- The `(success, debug_text)` pair returned by
`_persist_answered_questions_to_service`. -/
def persist_answered_questions_to_service (env : Option String) (uid : String) (aq : Json)
    (backend : Backend) : Bool × String :=
  (persist_sweep env uid aq backend).1

/-- `fastapi.HTTPException(status_code, detail)`. -/
structure HttpError where
  status : Nat
  detail : String
deriving DecidableEq

/-- A response of the external project service's GET endpoint: status code,
body text, and the body parsed as JSON (`resp.json()`). -/
structure HttpResp where
  status : Nat
  text : String
  body : Json

/-- `payload.get("data") if isinstance(payload, dict) and payload.get("data") else payload`
— unwrap a truthy `data` envelope. -/
def project_data_of (payload : Json) : Json :=
  match payload with
  | .obj entries =>
      let d := dictGetD entries "data" Json.null
      if pyTruthy d then d else payload
  | _ => payload

/-- Normalization of the fetched payload into the three-key project dict
(lines 44–48 of the endpoint module):

* `goal`: `project_data.get("goal") or project_data.get("project_goal") or (project_data.get("_doc") or \x7b\x7d).get("goal")`,
* `tasks`: `project_data.get("tasks", [])`,
* `answered_questions`: `project_data.get("answered_questions", []) or project_data.get("answeredQuestions", [])`.

`none` models the `AttributeError` the source raises when `project_data` (or a
truthy non-dict `_doc`) has no `.get`; Python's `or` is lazy, so the `_doc`
term is only evaluated when the first two are falsy. -/
def normalize_goal (entries : List (String × Json)) : Option Json :=
  if pyTruthy (dictGetD entries "goal" Json.null) then
    some (dictGetD entries "goal" Json.null)
  else if pyTruthy (dictGetD entries "project_goal" Json.null) then
    some (dictGetD entries "project_goal" Json.null)
  else
    pyGet
      (if pyTruthy (dictGetD entries "_doc" Json.null) then dictGetD entries "_doc" Json.null
       else Json.obj [])
      "goal"

def normalize_aq (entries : List (String × Json)) : Json :=
  if pyTruthy (dictGetD entries "answered_questions" (Json.arr [])) then
    dictGetD entries "answered_questions" (Json.arr [])
  else dictGetD entries "answeredQuestions" (Json.arr [])

def normalize_project (payload : Json) : Option Json :=
  match project_data_of payload with
  | .obj entries =>
      match normalize_goal entries with
      | none => none
      | some goal =>
          some (Json.obj [("goal", goal),
                          ("tasks", dictGetD entries "tasks" (Json.arr [])),
                          ("answered_questions", normalize_aq entries)])
  | _ => none

/-- Python `str.isdigit` restricted to ASCII: nonempty and all characters are
decimal digits. -/
def str_isdigit (s : String) : Bool :=
  !s.isEmpty && s.data.all Char.isDigit

/-- Python `int(s)` for a digit string. -/
def str_toNat (s : String) : Nat :=
  s.data.foldl (fun n c => n * 10 + (c.toNat - 48)) 0

/-- The URL of the external GET:
`f"{base.rstrip('/')}/api/v1/project/get/{project_id}/"`. -/
def get_path_for (base project_id : String) : String :=
  rstripSlash base ++ "/api/v1/project/get/" ++ project_id ++ "/"

/-- The external branch of `_fetch_project_by_id` (lines 33–49): require
`PROJECT_SERVICE_URL`, `GET {base}/api/v1/project/get/{project_id}/`, surface
a non-200 response as that status with the upstream body, then normalize.
The source performs the GET once; `get` being a pure oracle, mentioning
`get (get_path_for base project_id)` repeatedly denotes that one response.
A normalization `AttributeError` escapes the handler; FastAPI turns an
unhandled exception into a plain 500. -/
def external_fetch (env : Option String) (get : String → HttpResp) (project_id : String) :
    Except HttpError (Json × Bool × Option Nat) :=
  match env with
  | none => .error ⟨500, "PROJECT_SERVICE_URL not set in environment (.env)"⟩
  | some base =>
      if base = "" then .error ⟨500, "PROJECT_SERVICE_URL not set in environment (.env)"⟩
      else if (get (get_path_for base project_id)).status ≠ 200 then
        .error ⟨(get (get_path_for base project_id)).status,
                "Could not fetch project: " ++ (get (get_path_for base project_id)).text⟩
      else
        match normalize_project (get (get_path_for base project_id)).body with
        | none => .error ⟨500, "Internal Server Error"⟩
        | some project => .ok (project, true, none)

/-- `_fetch_project_by_id(project_id)` returning
`(normalized_project, external_fetched, numeric_index_if_in_memory)`.
`projects` is the in-memory table (a dict keyed by `int`); a digit id that is
a key of the table is served locally, everything else falls through to the
external fetch. -/
def fetch_project_by_id (projects : Nat → Option Json) (env : Option String)
    (get : String → HttpResp) (project_id : String) :
    Except HttpError (Json × Bool × Option Nat) :=
  if str_isdigit project_id then
    match projects (str_toNat project_id) with
    | some project => .ok (project, false, some (str_toNat project_id))
    | none => external_fetch env get project_id
  else external_fetch env get project_id

/-- The `if not project: raise HTTPException(404, "Project not found")` guard
shared by `ask_question`, `answer_question`, `chat_with_project_assistant`
and `get_project` (e.g. lines 95–96), on the fetched project dict. -/
def not_found_guard (project : Json) : Option HttpError :=
  if pyTruthy project then none else some ⟨404, "Project not found"⟩

/-- One question/answer pair of `answered_questions`: a dict
`{"question": ..., "answer": ...}`; `answer` is `None` until answered. -/
structure QA where
  question : String
  answer : Option String
deriving DecidableEq

/-- The normalized project dict as the endpoints use it: keys `goal`, `tasks`
and `answered_questions`. `tasks` is carried as raw JSON (the endpoints
under verification never inspect it). -/
structure Project where
  goal : String
  tasks : Json
  answered_questions : List QA

/-- Serialization of one QA dict as sent back in persistence payloads. -/
def QA.toJson (qa : QA) : Json :=
  Json.obj [("question", Json.str qa.question),
            ("answer", match qa.answer with | some a => Json.str a | none => Json.null)]

/-- Serialization of the `answered_questions` list. -/
def qasToJson (qs : List QA) : Json :=
  Json.arr (qs.map QA.toJson)

/-- The project record rendered back as its three-key dict (what `not project`
is tested against at the endpoint level). -/
def projectToJson (p : Project) : Json :=
  Json.obj [("goal", Json.str p.goal), ("tasks", p.tasks),
            ("answered_questions", qasToJson p.answered_questions)]

/-- The prompt `ask_question` sends to `generate_text` (lines 99–107): from
the goal alone when `answered_questions` is falsy, otherwise from the goal
plus `Q:`/`A:` lines of exactly those prior QAs whose `answer is not None`. -/
def ask_prompt (project : Project) : String :=
  if project.answered_questions.isEmpty then
    "Based on this project goal, what is the question to ask generate only question no more word: "
      ++ project.goal
  else
    let prev_qas := String.intercalate "\n"
      ((project.answered_questions.filter (fun qa => qa.answer.isSome)).map
        (fun qa => "Q: " ++ qa.question ++ "\nA: " ++ qa.answer.getD ""))
    "Project goal: " ++ project.goal ++ "\n\nPrevious Q&A:\n" ++ prev_qas
      ++ "\n\nBased on the project goal and previous Q&A, what is the next question to ask?"

/-- What `ask_question` produces on success: the `{"question": ...}` response
body carries `question`; `new_answered_questions` is the appended sequence
(the value stored into `projects[numeric_idx]` when local, and the `qs`
pushed by the sweep when external); `local_update`/`persist_result` record
the two side effects. -/
structure AskResult where
  question : String
  new_answered_questions : List QA
  local_update : Option (Nat × List QA)
  persist_result : Option (Bool × String)

/-- `ask_question(project_id)` (lines 91–123) given the destructured result
of `_fetch_project_by_id`. Generates the next question, appends a QA with
`answer = None`, saves locally when the project came from the in-memory
table, best-effort persists when it was fetched externally — and returns
`{"question": question}` even when every persistence attempt failed. -/
def ask_question (env : Option String) (backend : Backend)
    (gen : String → Except HttpError String) (project_id : String)
    (project : Project) (external_fetched : Bool) (numeric_idx : Option Nat) :
    Except HttpError AskResult :=
  match not_found_guard (projectToJson project) with
  | some e => .error e
  | none =>
    match gen (ask_prompt project) with
    | .error e => .error e
    | .ok question =>
        let new_entry : QA := ⟨question, none⟩
        let new_qs := project.answered_questions ++ [new_entry]
        let local_update := numeric_idx.map (fun idx => (idx, new_qs))
        if external_fetched then
          let sweep := persist_answered_questions_to_service env project_id (qasToJson new_qs) backend
          .ok ⟨question, new_qs, local_update, some sweep⟩
        else
          .ok ⟨question, new_qs, local_update, none⟩

/-- `project["answered_questions"][-1]["answer"] = answer.answer` (line 137):
overwrite the `answer` of the last QA. -/
def set_last_answer : List QA → String → List QA
  | [], _ => []
  | [qa], a => [⟨qa.question, some a⟩]
  | qa :: qa2 :: rest, a => qa :: set_last_answer (qa2 :: rest) a

/-- Python truthiness of a tuple: a nonempty tuple is always truthy. Line 145
of the source binds the whole `(bool, str)` pair returned by the persistence
helper to `success` (it does not unpack it), so line 146's `if not success:`
tests the tuple itself. -/
def py_tuple_truthy {α β : Type} (_ : α × β) : Bool := true

/-- What `answer_question` produces on success: the response body is
`{"success": True, "project": project}`; `local_update`/`persist_result`
record the side effects as in `AskResult`. -/
structure AnswerResult where
  success : Bool
  project : Project
  local_update : Option (Nat × List QA)
  persist_result : Option (Bool × String)

/-- `answer_question(project_id, answer)` (lines 126–150) given the
destructured result of `_fetch_project_by_id`: 404 on a falsy project, 400
when there is no QA to answer, otherwise overwrite the last QA's answer,
store locally when in-memory, and — when externally fetched — run the
persistence sweep, raising 500 only if `not success` (where `success` is the
helper's returned tuple, see `py_tuple_truthy`). -/
def answer_question (env : Option String) (backend : Backend) (project_id : String)
    (project : Project) (external_fetched : Bool) (numeric_idx : Option Nat)
    (answer : String) : Except HttpError AnswerResult :=
  match not_found_guard (projectToJson project) with
  | some e => .error e
  | none =>
    if project.answered_questions.isEmpty then
      .error ⟨400, "No question to answer"⟩
    else
      let updated := set_last_answer project.answered_questions answer
      let project2 : Project := { project with answered_questions := updated }
      let local_update := numeric_idx.map (fun idx => (idx, updated))
      if external_fetched then
        let success := persist_answered_questions_to_service env project_id (qasToJson updated) backend
        if py_tuple_truthy success = false then
          .error ⟨500, "Failed to persist answer to project service"⟩
        else
          .ok ⟨true, project2, local_update, some success⟩
      else
        .ok ⟨true, project2, local_update, none⟩

/-- Python regex `\s` on ASCII text: space, tab, newline, carriage return,
vertical tab, form feed. -/
def isPySpace (c : Char) : Bool :=
  c = ' ' || c = '\t' || c = '\n' || c = '\r' || c = '\x0b' || c = '\x0c'

/-- The regex class `[A-Z]`. -/
def isUpperAZ (c : Char) : Bool :=
  'A' ≤ c && c ≤ 'Z'

/-- Head of a reversed-accumulator fragment, `'\x00'` when empty (never a
match for `'.'`). -/
def lastCharD (acc : List Char) : Char :=
  match acc with
  | [] => '\x00'
  | c :: _ => c

/-- `re.split(r'(?<=\.)\s*(?=[A-Z])', text)` as a left-to-right scan.

A separator match sits at a position whose previous character is `'.'`
(lookbehind), consumes the maximal run of whitespace (`\s*` — any shorter run
would leave a whitespace character under the `[A-Z]` lookahead, so greedy
matching is the only candidate), and requires the next character to be an
`[A-Z]` letter (lookahead, not consumed). The scanner state is the current
fragment `acc` (reversed) and, while the previous fragment character is `'.'`,
the run of whitespace `pending` (reversed) that will become the separator if
an uppercase letter follows; when something else follows, the match at that
position fails and the buffered whitespace stays part of the fragment. No
position inside the buffered run can start a match (its previous character is
whitespace, not `'.'`), and after an empty match the next character is an
uppercase letter, so no adjacent empty re-match can occur — matching Python's
empty-match splitting rule. -/
def split_tasks_aux (acc pending : List Char) : List Char → List (List Char)
  | [] => [(pending ++ acc).reverse]
  | c :: rest =>
      if lastCharD acc = '.' then
        if isPySpace c then
          split_tasks_aux acc (c :: pending) rest
        else if isUpperAZ c then
          acc.reverse :: split_tasks_aux [c] [] rest
        else
          split_tasks_aux (c :: (pending ++ acc)) [] rest
      else
        split_tasks_aux (c :: acc) [] rest

/-- Python `str.strip()` (ASCII whitespace) on a character list. -/
def pyStrip (l : List Char) : List Char :=
  ((l.dropWhile isPySpace).reverse.dropWhile isPySpace).reverse

/-- `extract_tasks(task_paragraph)` from `app/utils/task_utils.py`: split on
the regex boundary, strip each fragment, keep the non-empty ones. -/
def extract_tasks (task_paragraph : String) : List String :=
  let task_list := split_tasks_aux [] [] task_paragraph.data
  ((task_list.map pyStrip).filter (fun t => !t.isEmpty)).map (fun t => String.mk t)

/-- Whether a JSON value is a dict with exactly one entry whose key is `k` —
used to recognize which of the three payload envelopes a backend received. -/
def topKeyIs (k : String) : Json → Bool
  | .obj [(k2, _)] => k2 == k
  | _ => false

/-- The fake external backend of the persistence-sweep scenario: it accepts
exactly `PUT {base}/api/v1/project/{uid}/` with the
`\x7b"project": \x7b"answered_questions": ...\x7d\x7d` envelope (status 200)
and rejects everything else with a 404. -/
def selectiveBackend (base uid : String) : Backend :=
  fun method path payload =>
    if method == "put" && topKeyIs "project" payload
        && (path == rstripSlash base ++ "/api/v1/project/" ++ uid ++ "/")
    then .response 200 "accepted"
    else .response 404 "not found"

/-- Attempt 24 of the sweep: `PUT {base}/api/v1/project/{uid}/` with the
`project` envelope — the only one `selectiveBackend` accepts. -/
def put_plain_attempt (base uid : String) (aq : Json) : PersistAttempt :=
  ⟨"put", rstripSlash base ++ "/api/v1/project/" ++ uid ++ "/",
   Json.obj [("project", Json.obj [("answered_questions", aq)])]⟩

/-- Attempt 36, the last one: `POST {base}/api/v1/project/{uid}/update` with
the `project` envelope. -/
def post_update_attempt (base uid : String) (aq : Json) : PersistAttempt :=
  ⟨"post", rstripSlash base ++ "/api/v1/project/" ++ uid ++ "/update",
   Json.obj [("project", Json.obj [("answered_questions", aq)])]⟩

/-- The question/answer pairs of exactly the answered QAs, in order — the
data the external-mode `ask_question` prompt is built from. -/
def answered_pairs (qs : List QA) : List (String × String) :=
  qs.filterMap (fun qa => qa.answer.map (fun a => (qa.question, a)))

/-! Helper lemmas about the persistence sweep. -/

theorem run_sweep_trace_take (backend : Backend) (l : List PersistAttempt) (e : String) :
    ∃ k, (run_sweep backend l e).2 = l.take k := by
  induction l generalizing e with
  | nil => exact ⟨0, rfl⟩
  | cons a rest ih =>
      by_cases h : attempt_ok backend a
      · exact ⟨1, by simp [run_sweep, h]⟩
      · obtain ⟨k, hk⟩ := ih (attempt_debug backend a)
        exact ⟨k + 1, by simp [run_sweep, h, hk]⟩

theorem run_sweep_all_fail (backend : Backend) :
    ∀ (l : List PersistAttempt) (e : String), (∀ a ∈ l, attempt_ok backend a = false) →
      run_sweep backend l e = ((false, l.foldl (fun _ a => attempt_debug backend a) e), l) := by
  intro l
  induction l with
  | nil => intro e _; rfl
  | cons a rest ih =>
      intro e h
      have ha : attempt_ok backend a = false := h a (List.mem_cons_self a rest)
      have hrest := ih (attempt_debug backend a) (fun x hx => h x (List.mem_cons_of_mem a hx))
      simp [run_sweep, ha, hrest]

theorem run_sweep_first_success (backend : Backend) (t : PersistAttempt)
    (l2 : List PersistAttempt) (h2 : attempt_ok backend t = true) :
    ∀ (l1 : List PersistAttempt) (e : String), (∀ a ∈ l1, attempt_ok backend a = false) →
      run_sweep backend (l1 ++ t :: l2) e = ((true, attempt_debug backend t), l1 ++ [t]) := by
  intro l1
  induction l1 with
  | nil => intro e _; simp [run_sweep, h2]
  | cons a rest ih =>
      intro e h1
      have ha : attempt_ok backend a = false := h1 a (List.mem_cons_self a rest)
      have hrest := ih (attempt_debug backend a) (fun x hx => h1 x (List.mem_cons_of_mem a hx))
      simp [run_sweep, ha, hrest]

theorem update_path_ne_plain (base uid : String) :
    rstripSlash base ++ "/api/v1/project/update/" ++ uid ++ "/"
      ≠ rstripSlash base ++ "/api/v1/project/" ++ uid ++ "/" := by
  intro h
  have h2 := congrArg String.length h
  simp only [String.length_append] at h2
  have e1 : ("/api/v1/project/update/" : String).length = 23 := rfl
  have e2 : ("/api/v1/project/" : String).length = 16 := rfl
  rw [e1, e2] at h2
  omega

theorem patch_path_ne_plain (base uid : String) :
    rstripSlash base ++ "/api/v1/project/patch/" ++ uid ++ "/"
      ≠ rstripSlash base ++ "/api/v1/project/" ++ uid ++ "/" := by
  intro h
  have h2 := congrArg String.length h
  simp only [String.length_append] at h2
  have e1 : ("/api/v1/project/patch/" : String).length = 22 := rfl
  have e2 : ("/api/v1/project/" : String).length = 16 := rfl
  rw [e1, e2] at h2
  omega

theorem path_block_all_fail (base uid path : String) (aq : Json)
    (hne : (path == rstripSlash base ++ "/api/v1/project/" ++ uid ++ "/") = false) :
    ∀ a ∈ path_block path aq, attempt_ok (selectiveBackend base uid) a = false := by
  intro a ha
  simp [path_block, payload_variants] at ha
  rcases ha with rfl | rfl | rfl | rfl | rfl | rfl | rfl | rfl | rfl <;>
    simp [attempt_ok, selectiveBackend, topKeyIs, hne, is_success_result]

theorem selective_accepts_target (base uid : String) (aq : Json) :
    attempt_ok (selectiveBackend base uid) (put_plain_attempt base uid aq) = true := by
  simp [attempt_ok, selectiveBackend, topKeyIs, put_plain_attempt, is_success_result]

/-- C1: the persistence sweep issues at most 36 attempts — paths outermost,
methods (PATCH, PUT, POST) in the middle, payload envelopes innermost, in the
deterministic order of `persist_attempts` — and every trace it produces is a
prefix (`take k`) of that order; against a backend accepting only
`PUT {base}/api/v1/project/{uid}/` with the `project` envelope it succeeds on
exactly that combination (attempt 24) with no attempt after it; and when every
attempt fails, the returned failure text is the debug line of the last
attempted call (`POST {base}/api/v1/project/{uid}/update`, `project`
envelope). -/
theorem persist_sweep_deterministic_order (base uid : String) (aq : Json) (hb : base ≠ "") :
    (persist_attempts base uid aq).length = 36
    ∧ (∀ backend : Backend,
        ∃ k, (persist_sweep (some base) uid aq backend).2 = (persist_attempts base uid aq).take k)
    ∧ persist_sweep (some base) uid aq (selectiveBackend base uid)
        = ((true, attempt_debug (selectiveBackend base uid) (put_plain_attempt base uid aq)),
           (persist_attempts base uid aq).take 24)
    ∧ ((persist_attempts base uid aq).take 24).getLast? = some (put_plain_attempt base uid aq)
    ∧ (∀ backend : Backend, (∀ m p pl, is_success_result (backend m p pl) = false) →
        persist_sweep (some base) uid aq backend
          = ((false, attempt_debug backend (post_update_attempt base uid aq)),
             persist_attempts base uid aq)) := by
  have hsweep : ∀ backend : Backend, persist_sweep (some base) uid aq backend
      = run_sweep backend (persist_attempts base uid aq) "no-attempt" := by
    intro backend; simp [persist_sweep, hb]
  refine ⟨rfl, ?_, ?_, rfl, ?_⟩
  · intro backend
    rw [hsweep]
    exact run_sweep_trace_take backend _ _
  · have hne1 := beq_eq_false_iff_ne.mpr (update_path_ne_plain base uid)
    have hne2 := beq_eq_false_iff_ne.mpr (patch_path_ne_plain base uid)
    have h1 : ∀ a ∈ (persist_attempts base uid aq).take 23,
        attempt_ok (selectiveBackend base uid) a = false := by
      have hd : (persist_attempts base uid aq).take 23
          = path_block (rstripSlash base ++ "/api/v1/project/update/" ++ uid ++ "/") aq
            ++ path_block (rstripSlash base ++ "/api/v1/project/patch/" ++ uid ++ "/") aq
            ++ [⟨"patch", rstripSlash base ++ "/api/v1/project/" ++ uid ++ "/",
                  Json.obj [("answered_questions", aq)]⟩,
                ⟨"patch", rstripSlash base ++ "/api/v1/project/" ++ uid ++ "/",
                  Json.obj [("data", Json.obj [("answered_questions", aq)])]⟩,
                ⟨"patch", rstripSlash base ++ "/api/v1/project/" ++ uid ++ "/",
                  Json.obj [("project", Json.obj [("answered_questions", aq)])]⟩,
                ⟨"put", rstripSlash base ++ "/api/v1/project/" ++ uid ++ "/",
                  Json.obj [("answered_questions", aq)]⟩,
                ⟨"put", rstripSlash base ++ "/api/v1/project/" ++ uid ++ "/",
                  Json.obj [("data", Json.obj [("answered_questions", aq)])]⟩] := rfl
      rw [hd]
      intro a ha
      rcases List.mem_append.mp ha with ha | ha
      · rcases List.mem_append.mp ha with ha | ha
        · exact path_block_all_fail base uid _ aq hne1 a ha
        · exact path_block_all_fail base uid _ aq hne2 a ha
      · simp only [List.mem_cons, List.not_mem_nil, or_false] at ha
        rcases ha with rfl | rfl | rfl | rfl | rfl <;>
          simp [attempt_ok, selectiveBackend, topKeyIs, is_success_result]
    rw [hsweep]
    exact run_sweep_first_success (selectiveBackend base uid) (put_plain_attempt base uid aq)
      ((persist_attempts base uid aq).drop 24) (selective_accepts_target base uid aq)
      ((persist_attempts base uid aq).take 23) "no-attempt" h1
  · intro backend hfail
    have h1 : ∀ a ∈ persist_attempts base uid aq, attempt_ok backend a = false :=
      fun a _ => hfail a.method a.path a.payload
    rw [hsweep, run_sweep_all_fail backend (persist_attempts base uid aq) "no-attempt" h1]
    rfl

/-- Witness for C1 at `base = "http://svc"`, `uid = "p1"`,
`answered_questions = null`, with an all-rejecting backend for the
failure clause. -/
theorem persist_sweep_deterministic_order_witness :
    (persist_attempts "http://svc" "p1" Json.null).length = 36
    ∧ persist_sweep (some "http://svc") "p1" Json.null (selectiveBackend "http://svc" "p1")
        = ((true, attempt_debug (selectiveBackend "http://svc" "p1")
              (put_plain_attempt "http://svc" "p1" Json.null)),
           (persist_attempts "http://svc" "p1" Json.null).take 24)
    ∧ ((persist_attempts "http://svc" "p1" Json.null).take 24).getLast?
        = some (put_plain_attempt "http://svc" "p1" Json.null)
    ∧ persist_sweep (some "http://svc") "p1" Json.null (fun _ _ _ => HttpResult.response 500 "rejected")
        = ((false, attempt_debug (fun _ _ _ => HttpResult.response 500 "rejected")
              (post_update_attempt "http://svc" "p1" Json.null)),
           persist_attempts "http://svc" "p1" Json.null) := by
  have h := persist_sweep_deterministic_order "http://svc" "p1" Json.null (by decide)
  exact ⟨h.1, h.2.2.1, h.2.2.2.1, h.2.2.2.2 _ (fun m p pl => rfl)⟩

/-- C3 counterexample: on `"Build the app. Then test it. Ship it"` the
extractor does not return the claimed two-element list. `"Ship"` follows the
`". "` boundary pattern (period, whitespace, uppercase letter), so the regex
splits before it as well. -/
theorem extract_tasks_example_counterexample :
    extract_tasks "Build the app. Then test it. Ship it"
      ≠ ["Build the app.", "Then test it. Ship it"] := by decide

/-- C3 amended: `extract` on `"Build the app. Then test it. Ship it"` returns
the three-element sequence, splitting both before `"Then"` and before
`"Ship"`. -/
theorem extract_tasks_example_amended :
    extract_tasks "Build the app. Then test it. Ship it"
      = ["Build the app.", "Then test it.", "Ship it"] := rfl

/-! Helper lemmas about `set_last_answer` and the endpoint bodies. -/

theorem list_isEmpty_false_of_ne {α : Type} {l : List α} (h : l ≠ []) : l.isEmpty = false := by
  cases l with
  | nil => exact absurd rfl h
  | cons x rest => rfl

theorem set_last_answer_length (qs : List QA) (a : String) :
    (set_last_answer qs a).length = qs.length := by
  induction qs with
  | nil => rfl
  | cons x rest ih =>
      cases rest with
      | nil => rfl
      | cons y t => simp only [set_last_answer, List.length_cons, ih]

theorem set_last_answer_getElem (qs : List QA) (a : String) :
    ∀ i, i + 1 < qs.length → (set_last_answer qs a)[i]? = qs[i]? := by
  induction qs with
  | nil => intro i h; simp at h
  | cons x rest ih =>
      cases rest with
      | nil => intro i h; simp at h
      | cons y t =>
          intro i h
          cases i with
          | zero => simp only [set_last_answer, List.getElem?_cons_zero]
          | succ j =>
              have hj : j + 1 < (y :: t).length := by
                simp only [List.length_cons] at h ⊢; omega
              have := ih j hj
              simp only [set_last_answer, List.getElem?_cons_succ, this]

theorem set_last_answer_getLast (qs : List QA) (a : String) :
    (set_last_answer qs a).getLast? = qs.getLast?.map (fun qa => (⟨qa.question, some a⟩ : QA)) := by
  induction qs with
  | nil => rfl
  | cons x rest ih =>
      cases rest with
      | nil => rfl
      | cons y t =>
          have h1 : set_last_answer (x :: y :: t) a = x :: set_last_answer (y :: t) a := rfl
          obtain ⟨z, zs, hz⟩ : ∃ z zs, set_last_answer (y :: t) a = z :: zs := by
            cases t with
            | nil => exact ⟨_, _, rfl⟩
            | cons w ws => exact ⟨_, _, rfl⟩
          rw [h1, hz, List.getLast?_cons_cons, ← hz, ih, List.getLast?_cons_cons]

theorem answer_question_ok (env : Option String) (backend : Backend) (pid : String)
    (p : Project) (ext : Bool) (idx : Option Nat) (a : String)
    (hne : p.answered_questions.isEmpty = false) :
    answer_question env backend pid p ext idx a
      = .ok ⟨true, { p with answered_questions := set_last_answer p.answered_questions a },
             idx.map (fun i => (i, set_last_answer p.answered_questions a)),
             if ext then
               some (persist_answered_questions_to_service env pid
                 (qasToJson (set_last_answer p.answered_questions a)) backend)
             else none⟩ := by
  cases ext <;>
    simp [answer_question, not_found_guard, projectToJson, pyTruthy, hne, py_tuple_truthy]

theorem ask_question_ok (env : Option String) (backend : Backend)
    (gen : String → Except HttpError String) (pid : String)
    (p : Project) (ext : Bool) (idx : Option Nat) (q : String)
    (hgen : gen (ask_prompt p) = .ok q) :
    ask_question env backend gen pid p ext idx
      = .ok ⟨q, p.answered_questions ++ [⟨q, none⟩],
             idx.map (fun i => (i, p.answered_questions ++ [⟨q, none⟩])),
             if ext then
               some (persist_answered_questions_to_service env pid
                 (qasToJson (p.answered_questions ++ [⟨q, none⟩])) backend)
             else none⟩ := by
  cases ext <;>
    simp [ask_question, not_found_guard, projectToJson, pyTruthy, hgen]

/-- C4: on a project with `n ≥ 1` QAs, `answer_question` succeeds and the
resulting project has the same goal, the same tasks, the same number of QAs,
every QA except the last unchanged, and the last QA's question unchanged with
its answer set to `a`. -/
theorem answer_question_sets_last (env : Option String) (backend : Backend) (pid : String)
    (p : Project) (ext : Bool) (idx : Option Nat) (a : String)
    (h : p.answered_questions ≠ []) :
    ∃ r : AnswerResult, answer_question env backend pid p ext idx a = .ok r
      ∧ r.project.goal = p.goal
      ∧ r.project.tasks = p.tasks
      ∧ r.project.answered_questions.length = p.answered_questions.length
      ∧ (∀ i, i + 1 < p.answered_questions.length →
          r.project.answered_questions[i]? = p.answered_questions[i]?)
      ∧ r.project.answered_questions.getLast?
          = p.answered_questions.getLast?.map (fun qa => (⟨qa.question, some a⟩ : QA)) := by
  refine ⟨_, answer_question_ok env backend pid p ext idx a (list_isEmpty_false_of_ne h),
    rfl, rfl, set_last_answer_length _ _, set_last_answer_getElem _ _, set_last_answer_getLast _ _⟩

/-- Witness for C4: a concrete two-QA project; the first QA survives
unchanged and the second gets the answer. -/
theorem answer_question_sets_last_witness :
    ∃ r : AnswerResult,
      answer_question none (fun _ _ _ => HttpResult.response 500 "no") "0"
          ⟨"goal g", Json.arr [], [⟨"q1", some "a1"⟩, ⟨"q2", none⟩]⟩ false (some 0) "a2" = .ok r
      ∧ r.project.goal = "goal g"
      ∧ r.project.tasks = Json.arr []
      ∧ r.project.answered_questions.length = 2
      ∧ (∀ i, i + 1 < 2 → r.project.answered_questions[i]? = [(⟨"q1", some "a1"⟩ : QA), ⟨"q2", none⟩][i]?)
      ∧ r.project.answered_questions.getLast? = some ⟨"q2", some "a2"⟩ :=
  answer_question_sets_last none (fun _ _ _ => HttpResult.response 500 "no") "0"
    ⟨"goal g", Json.arr [], [⟨"q1", some "a1"⟩, ⟨"q2", none⟩]⟩ false (some 0) "a2" (by decide)

/-- C5: on a project with no QAs, `answer_question` fails with
`400 "No question to answer"`; the embedding reports state updates only
through an `.ok` result, so the error leaves both the in-memory table and the
external service untouched. -/
theorem answer_question_empty_400 (env : Option String) (backend : Backend) (pid : String)
    (p : Project) (ext : Bool) (idx : Option Nat) (a : String)
    (h : p.answered_questions = []) :
    answer_question env backend pid p ext idx a = .error ⟨400, "No question to answer"⟩ := by
  simp [answer_question, not_found_guard, projectToJson, pyTruthy, h]

/-- Witness for C5 on a concrete empty-QA project. -/
theorem answer_question_empty_400_witness :
    answer_question none (fun _ _ _ => HttpResult.response 500 "no") "0"
        ⟨"goal g", Json.arr [], []⟩ false (some 0) "a"
      = .error ⟨400, "No question to answer"⟩ :=
  answer_question_empty_400 none (fun _ _ _ => HttpResult.response 500 "no") "0"
    ⟨"goal g", Json.arr [], []⟩ false (some 0) "a" rfl

/-- C6: whenever the gateway returns a question `q`, `ask_question` succeeds,
the new `answered_questions` sequence is the old one with one entry appended,
so it has length `k + 1`, and the appended entry is `⟨q, answer := none⟩`. -/
theorem ask_question_appends_qa (env : Option String) (backend : Backend)
    (gen : String → Except HttpError String) (pid : String)
    (p : Project) (ext : Bool) (idx : Option Nat) (q : String)
    (hgen : gen (ask_prompt p) = .ok q) :
    ∃ r : AskResult, ask_question env backend gen pid p ext idx = .ok r
      ∧ r.question = q
      ∧ r.new_answered_questions = p.answered_questions ++ [⟨q, none⟩]
      ∧ r.new_answered_questions.length = p.answered_questions.length + 1
      ∧ r.new_answered_questions.getLast? = some ⟨q, none⟩ := by
  refine ⟨_, ask_question_ok env backend gen pid p ext idx q hgen, rfl, rfl, by simp, ?_⟩
  exact List.getLast?_concat _

/-- Witness for C6 on a concrete one-QA project with a constant gateway. -/
theorem ask_question_appends_qa_witness :
    ∃ r : AskResult,
      ask_question none (fun _ _ _ => HttpResult.response 500 "no")
          (fun _ => .ok "next q") "0" ⟨"goal g", Json.arr [], [⟨"q1", some "a1"⟩]⟩ false (some 0)
        = .ok r
      ∧ r.question = "next q"
      ∧ r.new_answered_questions = [⟨"q1", some "a1"⟩, ⟨"next q", none⟩]
      ∧ r.new_answered_questions.length = 1 + 1
      ∧ r.new_answered_questions.getLast? = some ⟨"next q", none⟩ :=
  ask_question_appends_qa none (fun _ _ _ => HttpResult.response 500 "no")
    (fun _ => .ok "next q") "0" ⟨"goal g", Json.arr [], [⟨"q1", some "a1"⟩]⟩ false (some 0)
    "next q" rfl

/-- C7: the prompt `ask_question` hands to the gateway is built from the goal
alone when `answered_questions` is empty, and otherwise from the goal plus
exactly the answered pairs (question, answer) of the prior QAs — unanswered
QAs contribute nothing — joined as `Q:`/`A:` lines. -/
theorem ask_prompt_uses_only_answered (p : Project) :
    (p.answered_questions = [] →
      ask_prompt p
        = "Based on this project goal, what is the question to ask generate only question no more word: "
            ++ p.goal)
    ∧ (p.answered_questions ≠ [] →
      ask_prompt p
        = "Project goal: " ++ p.goal ++ "\n\nPrevious Q&A:\n"
            ++ String.intercalate "\n" ((answered_pairs p.answered_questions).map
                  (fun pr => "Q: " ++ pr.1 ++ "\nA: " ++ pr.2))
            ++ "\n\nBased on the project goal and previous Q&A, what is the next question to ask?") := by
  constructor
  · intro h
    simp [ask_prompt, h]
  · intro h
    have hprev : (p.answered_questions.filter (fun qa => qa.answer.isSome)).map
          (fun qa => "Q: " ++ qa.question ++ "\nA: " ++ qa.answer.getD "")
        = (answered_pairs p.answered_questions).map (fun pr => "Q: " ++ pr.1 ++ "\nA: " ++ pr.2) := by
      generalize p.answered_questions = qs
      induction qs with
      | nil => rfl
      | cons x rest ih =>
          cases hx : x.answer with
          | none => simpa [answered_pairs, List.filterMap_cons, List.filter_cons, hx] using ih
          | some a => simpa [answered_pairs, List.filterMap_cons, List.filter_cons, hx] using ih
    simp [ask_prompt, list_isEmpty_false_of_ne h, hprev]

/-- Witness for C7: a project with one answered and one unanswered QA — the
unanswered QA does not appear in the prompt. -/
theorem ask_prompt_uses_only_answered_witness :
    ask_prompt ⟨"g", Json.arr [], [⟨"q1", some "a1"⟩, ⟨"q2", none⟩]⟩
      = "Project goal: " ++ "g" ++ "\n\nPrevious Q&A:\n"
          ++ String.intercalate "\n" ((answered_pairs [⟨"q1", some "a1"⟩, ⟨"q2", none⟩]).map
                (fun pr => "Q: " ++ pr.1 ++ "\nA: " ++ pr.2))
          ++ "\n\nBased on the project goal and previous Q&A, what is the next question to ask?" :=
  (ask_prompt_uses_only_answered ⟨"g", Json.arr [], [⟨"q1", some "a1"⟩, ⟨"q2", none⟩]⟩).2
    (by decide)

set_option maxRecDepth 4000 in
theorem persist_all_fail_boom (aq : Json) :
    persist_answered_questions_to_service (some "http://svc") "ext1" aq
        (fun _ _ _ => HttpResult.response 500 "boom")
      = (false, "POST http://svc/api/v1/project/ext1/update -> 500 boom") := by
  have h := run_sweep_all_fail (fun _ _ _ => HttpResult.response 500 "boom")
      (persist_attempts "http://svc" "ext1" aq) "no-attempt" (fun a _ => rfl)
  show (run_sweep (fun _ _ _ => HttpResult.response 500 "boom")
      (persist_attempts "http://svc" "ext1" aq) "no-attempt").1 = _
  rw [h]
  rfl

/-- C2, evaluated at a failing input (external-mode project, every persistence
attempt rejected with a 500): `ask_question` swallows the persistence failure
and still returns the question — as the claim says — but `answer_question`
does NOT raise the 500 persistence failure the claim (and the spec, and the
dead `raise` on line 147) calls for: line 145 binds the helper's `(bool, str)`
tuple to `success` without unpacking it, a nonempty tuple is always truthy,
so line 146's `if not success:` never fires and the endpoint returns
`{"success": True, ...}`. -/
theorem persistence_failure_asymmetry_code_bug :
    (∀ (m p : String) (pl : Json),
        is_success_result (((fun _ _ _ => HttpResult.response 500 "boom") : Backend) m p pl) = false)
    ∧ ask_question (some "http://svc") (fun _ _ _ => HttpResult.response 500 "boom")
        (fun _ => .ok "next question") "ext1" ⟨"build a robot", Json.arr [], [⟨"q1", none⟩]⟩ true none
        = .ok ⟨"next question", [⟨"q1", none⟩, ⟨"next question", none⟩], none,
               some (false, "POST http://svc/api/v1/project/ext1/update -> 500 boom")⟩
    ∧ answer_question (some "http://svc") (fun _ _ _ => HttpResult.response 500 "boom") "ext1"
        ⟨"build a robot", Json.arr [], [⟨"q1", none⟩]⟩ true none "my answer"
        = .ok ⟨true, ⟨"build a robot", Json.arr [], [⟨"q1", some "my answer"⟩]⟩, none,
               some (false, "POST http://svc/api/v1/project/ext1/update -> 500 boom")⟩
    ∧ answer_question (some "http://svc") (fun _ _ _ => HttpResult.response 500 "boom") "ext1"
        ⟨"build a robot", Json.arr [], [⟨"q1", none⟩]⟩ true none "my answer"
        ≠ .error ⟨500, "Failed to persist answer to project service"⟩ := by
  have hask := ask_question_ok (some "http://svc") (fun _ _ _ => HttpResult.response 500 "boom")
      (fun _ => .ok "next question") "ext1" ⟨"build a robot", Json.arr [], [⟨"q1", none⟩]⟩
      true none "next question" rfl
  rw [persist_all_fail_boom] at hask
  have hans := answer_question_ok (some "http://svc") (fun _ _ _ => HttpResult.response 500 "boom")
      "ext1" ⟨"build a robot", Json.arr [], [⟨"q1", none⟩]⟩ true none "my answer" rfl
  rw [persist_all_fail_boom] at hans
  refine ⟨fun _ _ _ => rfl, hask, hans, ?_⟩
  intro hcontra
  rw [hans] at hcontra
  exact Except.noConfusion hcontra

/-- C8: with `PROJECT_SERVICE_URL` unset, every external-mode call of the
fetch helper (digit id not in the table, or non-digit id) fails with a 500
whose detail names `PROJECT_SERVICE_URL`, while a local-mode call (digit id
present in the table) returns the stored project for every value of the
environment — it never consults it. Every endpoint starts with this helper
and propagates its `HTTPException` unchanged. -/
theorem missing_service_url_behavior (projects : Nat → Option Json)
    (get : String → HttpResp) (pid : String) :
    (∀ p : Json, str_isdigit pid = true → projects (str_toNat pid) = some p →
      ∀ env : Option String,
        fetch_project_by_id projects env get pid = .ok (p, false, some (str_toNat pid)))
    ∧ ((str_isdigit pid = false ∨ projects (str_toNat pid) = none) →
      fetch_project_by_id projects none get pid
        = .error ⟨500, "PROJECT_SERVICE_URL not set in environment (.env)"⟩) := by
  constructor
  · intro p hdig hsome env
    simp [fetch_project_by_id, hdig, hsome]
  · intro h
    by_cases hdig : str_isdigit pid = true
    · rcases h with h | h
      · rw [h] at hdig; exact absurd hdig (by decide)
      · simp [fetch_project_by_id, hdig, h, external_fetch]
    · simp [fetch_project_by_id, hdig, external_fetch]

/-- Witness for C8: a table holding only id 7; `"7"` is served locally with
the environment unset, `"abc"` fails with the configuration 500. -/
theorem missing_service_url_behavior_witness :
    fetch_project_by_id (fun n => if n = 7 then some (Json.str "local project") else none) none
        (fun _ => ⟨200, "", Json.obj []⟩) "7"
      = .ok (Json.str "local project", false, some 7)
    ∧ fetch_project_by_id (fun n => if n = 7 then some (Json.str "local project") else none) none
        (fun _ => ⟨200, "", Json.obj []⟩) "abc"
      = .error ⟨500, "PROJECT_SERVICE_URL not set in environment (.env)"⟩ :=
  ⟨(missing_service_url_behavior (fun n => if n = 7 then some (Json.str "local project") else none)
      (fun _ => ⟨200, "", Json.obj []⟩) "7").1 (Json.str "local project") rfl rfl none,
   (missing_service_url_behavior (fun n => if n = 7 then some (Json.str "local project") else none)
      (fun _ => ⟨200, "", Json.obj []⟩) "abc").2 (Or.inl rfl)⟩

theorem normalize_project_shape (payload proj : Json)
    (h : normalize_project payload = some proj) :
    ∃ g t a, proj = Json.obj [("goal", g), ("tasks", t), ("answered_questions", a)] := by
  unfold normalize_project at h
  split at h
  · split at h
    · exact absurd h (by simp)
    · exact ⟨_, _, _, (Option.some.inj h).symm⟩
  · exact absurd h (by simp)

/-- C9: a successful external fetch always hands back a normalized project
dict with exactly the keys `goal`, `tasks` and `answered_questions`; a
three-entry dict is truthy, so the `if not project:` 404 branch shared by
`ask_question`, `answer_question`, `chat_with_project_assistant` and
`get_project` can never fire on an externally fetched project. -/
theorem external_fetch_result_truthy (env : Option String) (get : String → HttpResp)
    (pid : String) (proj : Json) (b : Bool) (i : Option Nat)
    (h : external_fetch env get pid = .ok (proj, b, i)) :
    (∃ g t a, proj = Json.obj [("goal", g), ("tasks", t), ("answered_questions", a)])
    ∧ pyTruthy proj = true
    ∧ not_found_guard proj = none := by
  unfold external_fetch at h
  split at h
  · exact absurd h (by simp)
  · split at h
    · exact absurd h (by simp)
    · split at h
      · exact absurd h (by simp)
      · split at h
        · exact absurd h (by simp)
        · rename_i pr hn
          have hinj := Except.ok.inj h
          have hpr : pr = proj := congrArg Prod.fst hinj
          obtain ⟨g, t, a, hshape⟩ := normalize_project_shape _ _ hn
          rw [← hpr, hshape]
          exact ⟨⟨g, t, a, rfl⟩, rfl, rfl⟩

/-- Witness for C9: a 200 response with body `\x7b"goal": "g"\x7d` normalizes
to the three-key dict, which is truthy and passes the guard. -/
theorem external_fetch_result_truthy_witness :
    (∃ g t a, Json.obj [("goal", Json.str "g"), ("tasks", Json.arr []),
                        ("answered_questions", Json.arr [])]
        = Json.obj [("goal", g), ("tasks", t), ("answered_questions", a)])
    ∧ pyTruthy (Json.obj [("goal", Json.str "g"), ("tasks", Json.arr []),
                          ("answered_questions", Json.arr [])]) = true
    ∧ not_found_guard (Json.obj [("goal", Json.str "g"), ("tasks", Json.arr []),
                                 ("answered_questions", Json.arr [])]) = none :=
  external_fetch_result_truthy (some "http://x")
    (fun _ => ⟨200, "", Json.obj [("goal", Json.str "g")]⟩) "abc"
    (Json.obj [("goal", Json.str "g"), ("tasks", Json.arr []), ("answered_questions", Json.arr [])])
    true none rfl

theorem could_not_fetch_ne_not_found (s : String) :
    "Could not fetch project: " ++ s ≠ "Project not found" := by
  intro hcontra
  have h2 := congrArg String.length hcontra
  rw [String.length_append] at h2
  have e1 : ("Could not fetch project: " : String).length = 25 := rfl
  have e2 : ("Project not found" : String).length = 17 := rfl
  rw [e1, e2] at h2
  omega

/-- C10: a digit-only id that is not a key of the in-memory table is not
rejected locally — the helper's result is exactly the external fetch of that
same id (local mode requires presence in the table, not just a digit shape),
and in particular it is never the `404 "Project not found"` error. -/
theorem digit_id_missing_falls_through (projects : Nat → Option Json) (env : Option String)
    (get : String → HttpResp) (pid : String)
    (h1 : str_isdigit pid = true) (h2 : projects (str_toNat pid) = none) :
    fetch_project_by_id projects env get pid = external_fetch env get pid
    ∧ fetch_project_by_id projects env get pid ≠ .error ⟨404, "Project not found"⟩ := by
  have heq : fetch_project_by_id projects env get pid = external_fetch env get pid := by
    simp [fetch_project_by_id, h1, h2]
  refine ⟨heq, ?_⟩
  rw [heq]
  intro hc
  unfold external_fetch at hc
  split at hc
  · simp at hc
  · split at hc
    · simp at hc
    · split at hc
      · exact could_not_fetch_ne_not_found _ (congrArg HttpError.detail (Except.error.inj hc))
      · split at hc
        · simp at hc
        · exact Except.noConfusion hc

/-- Witness for C10: id `"9"` against a table holding only key 7 — the helper
equals the external fetch of `"9"` and is not a 404. -/
theorem digit_id_missing_falls_through_witness :
    fetch_project_by_id (fun n => if n = 7 then some (Json.str "local project") else none)
        (some "http://x") (fun _ => ⟨200, "", Json.obj [("goal", Json.str "g")]⟩) "9"
      = external_fetch (some "http://x") (fun _ => ⟨200, "", Json.obj [("goal", Json.str "g")]⟩) "9"
    ∧ fetch_project_by_id (fun n => if n = 7 then some (Json.str "local project") else none)
        (some "http://x") (fun _ => ⟨200, "", Json.obj [("goal", Json.str "g")]⟩) "9"
      ≠ .error ⟨404, "Project not found"⟩ :=
  digit_id_missing_falls_through (fun n => if n = 7 then some (Json.str "local project") else none)
    (some "http://x") (fun _ => ⟨200, "", Json.obj [("goal", Json.str "g")]⟩) "9" rfl rfl

end GoalChatbot
